import Mathlib

/-!
Verification development for the `react-native-recaptcha` bridge component.

Part 1 embeds the Bridge Document Builder (`getTemplate` from
`src/get-template.tsx`): a pure function from a configuration record to the
HTML document loaded into the WebView sandbox.  The template text is
transcribed literally, split at the interpolation points of the source's
template literal; JavaScript string interpolation of an absent (`undefined`)
optional value renders the text `undefined`, which `jsStr` reproduces.

Part 2 embeds the Bridge Controller (the `Recaptcha` component): its mutable
state (`timeout` ref, timer bookkeeping, animated opacity / z-index pair,
`loading`, `captchaLoaded`) and its event handlers `handleOpen`,
`handleClose`, `handleMessage` and the timeout callback armed by
`handleOpen`.  Host-visible side effects (script injections and host
callbacks) are accumulated in an effect log.  Since `setTimeout` handles are
overwritten but not always cleared in the source, the embedding tracks both
the single `timeout.current` ref and the multiset of armed, still-live
timers, so that leaked timers remain able to fire exactly as in JavaScript.
-/

namespace Recaptcha

/-- The reCAPTCHA widget size union type from `get-template.tsx`. -/
inductive RecaptchaSize where
  | invisible
  | normal
  | compact
deriving DecidableEq, Repr

/-- The reCAPTCHA widget theme union type from `get-template.tsx`. -/
inductive RecaptchaTheme where
  | dark
  | light
deriving DecidableEq, Repr

/-- The string value of a `RecaptchaSize`, as JavaScript interpolates it. -/
def RecaptchaSize.toStr : RecaptchaSize → String
  | .invisible => "invisible"
  | .normal => "normal"
  | .compact => "compact"

/-- `TemplateParams` from `get-template.tsx`; optional fields are `Option`. -/
structure TemplateParams where
  siteKey : String
  size : Option RecaptchaSize := none
  theme : Option RecaptchaTheme := none
  lang : Option String := none
  action : Option String := none
  hideBadge : Bool := false
  debug : Bool := false
deriving DecidableEq, Repr

/-- JavaScript template-literal rendering of a possibly-absent string:
interpolating `undefined` produces the text `undefined`. -/
def jsStr : Option String → String
  | some s => s
  | none => "undefined"

/-- Template text from the opening backtick up to the interpolation
of `lang` in the `<html lang="...">` attribute. -/
def tpl1 : String := "\n    <!DOCTYPE html>\n    <html lang=\""

/-- Template text between the `lang` interpolation and the
`enterprise ? 'enterprise' : 'api'` endpoint-segment interpolation. -/
def tpl2 : String := "\">\n    <head>\n        <meta charset=\"UTF-8\">\n        <meta name=\"viewport\" content=\"width=device-width, initial-scale=1.0\">\n        <title></title>\n\n        <link rel=\"preconnect\" href=\"https://www.google.com\">\n        <link rel=\"preconnect\" href=\"https://www.gstatic.com\" crossorigin>\n        \n        <script src=\"https://www.google.com/recaptcha/"

/-- Template text between the endpoint segment and the `hideBadge`
conditional style rule: the message-posting callbacks and the stylesheet. -/
def tpl3 : String := ".js\" async defer></script>\n        <script>\n            function rerenderRecaptcha()\x7b\n                grecaptcha.render(\x27recaptcha\x27, \x7b\x7d);\n            \x7d\n\n            function onSubmit(token) \x7b\n                window.ReactNativeWebView.postMessage(JSON.stringify(\x7b\n                    verify: token,\n                \x7d));\n            \x7d\n\n            function onError(error) \x7b\n                window.ReactNativeWebView.postMessage(JSON.stringify(\x7b\n                    error: error,\n                \x7d));\n            \x7d\n\n            function onExpired() \x7b\n                window.ReactNativeWebView.postMessage(JSON.stringify(\x7b\n                    expired: \x27expired\x27,\n                \x7d));\n            \x7d\n        </script>\n    \n        <style>\n            html,\n            body,\n            .container \x7b\n                height: 100%;\n                width: 100%;\n                margin: 0;\n                padding: 0;\n                display: flex;\n                justify-content: center;\n                align-items: center;\n            \x7d\n\n            "

/-- The style rule interpolated when `hideBadge` is truthy. -/
def badgeCss : String := ".grecaptcha-badge\x7bdisplay:none\x7d"

/-- Template text between the `hideBadge` rule and the `data-sitekey`
attribute of the widget mount element. -/
def tpl4 : String := "\n        </style>\n    </head>\n    \n    <body>\n        <div class=\"container\">\n            <div id=\"recaptcha\"\n                class=\"g-recaptcha\"\n                "

/-- Template text between the `siteKey` interpolation and the `size`
interpolation. -/
def tpl5 : String := "\n                data-callback=\"onSubmit\"\n                data-size=\""

/-- Template text between the `size` interpolation and the `debug`
conditional block. -/
def tpl6 : String := "\"\n                data-error-callback=\"onError\"\n                data-expired-callback=\"onExpired\">\n                \n                "

/-- The debug affordance interpolated when `debug` is truthy. -/
def debugDiv : String := "<div style=\"background-color:#00b9fc; color:#FFF; padding: 50px 50px; border-radius:5px\" onclick=\"rerenderRecaptcha()\"> Recarregar Captcha </div>"

/-- Template text from the closing of the mount element to the end. -/
def tpl7 : String := "\n            </div>\n        </div>\n    </body>\n    \n    </html>"

/-- `getTemplate` from `get-template.tsx`: the template literal with its six
interpolation points, concatenated in source order.  `theme` and `action`
are destructured by the source but never interpolated. -/
def getTemplate (params : TemplateParams) (enterprise : Bool) : String :=
  tpl1 ++ jsStr params.lang ++ tpl2
    ++ (if enterprise then "enterprise" else "api") ++ tpl3
    ++ (if params.hideBadge then badgeCss else "") ++ tpl4
    ++ ("data-sitekey=\"" ++ params.siteKey ++ "\"") ++ tpl5
    ++ jsStr (params.size.map RecaptchaSize.toStr) ++ tpl6
    ++ (if params.debug then debugDiv else "") ++ tpl7

/-- Drop everything up to and including the first occurrence of `marker`
in `cs`; `none` when `marker` does not occur. -/
def dropThroughMarker (marker : List Char) : List Char → Option (List Char)
  | [] => if marker.isEmpty then some [] else none
  | c :: cs =>
      if marker.isPrefixOf (c :: cs) then some ((c :: cs).drop marker.length)
      else dropThroughMarker marker cs

/-- The value an HTML parser recovers for the `data-sitekey` attribute of a
document: the text after `data-sitekey="` up to the next double quote. -/
def siteKeyAttr (doc : String) : Option String :=
  (dropThroughMarker ("data-sitekey=\"".toList) doc.toList).map
    (fun rest => String.mk (rest.takeWhile (fun c => c != '"')))

/-- A host-visible side effect of the Bridge Controller: a script injection
into the sandbox, a host callback invocation, or a console warning. -/
inductive Effect where
  | injectReset
  | injectExecute
  | cbVerify (token : String)
  | cbExpire
  | cbError (reason : String)
  | cbClose
  | warn
deriving DecidableEq, Repr

/-- A parsed message payload: the recognized keys of the JSON object posted
by the sandbox.  String-valued keys are `Option String` (`none` = key
absent), mirroring `payload.verify` etc. being `undefined`. -/
structure Payload where
  verify : Option String := none
  expired : Option String := none
  error : Option String := none
  onReady : Bool := false
deriving DecidableEq, Repr

/-- JavaScript truthiness of a possibly-absent string value:
`undefined` and the empty string are falsy. -/
def truthy : Option String → Bool
  | none => false
  | some s => s != ""

/-- The Bridge Controller's mutable state.  `timeoutRef` is the single
`timeout.current` ref; `liveTimers` is the list of armed timer ids that have
been neither cleared nor fired (the source can leak timers whose handle was
overwritten, so several may be live at once); `nextId` supplies fresh timer
ids; `log` accumulates host-visible effects in order. -/
structure ControllerState where
  timeoutRef : Option Nat := none
  liveTimers : List Nat := []
  nextId : Nat := 0
  containerOpacity : Nat := 0
  containerZIndex : Int := -1000
  loading : Bool := true
  captchaLoaded : Bool := false
  log : List Effect := []
deriving DecidableEq, Repr

/-- The controller state at mount. -/
def initState : ControllerState := {}

/-- `handleClose`: zero the opacity, send the container behind, inject the
widget reset script, and invoke the host's `onClose`. -/
def handleClose (s : ControllerState) : ControllerState :=
  { s with
      containerOpacity := 0
      containerZIndex := -1000
      log := s.log ++ [.injectReset, .cbClose] }

/-- `handleOpen`: inject the reset script, arm a fresh timeout (storing its
handle in `timeout.current` WITHOUT clearing any previously armed timer),
raise the container, inject the execute script, and restart the loader. -/
def handleOpen (s : ControllerState) : ControllerState :=
  { s with
      log := s.log ++ [.injectReset, .injectExecute]
      liveTimers := s.liveTimers ++ [s.nextId]
      timeoutRef := some s.nextId
      nextId := s.nextId + 1
      containerOpacity := 1
      containerZIndex := 100000
      loading := true }

/-- `clearTimeout(timeout.current)` guarded by the ref's truthiness: the
referenced timer (if any) stops being live; the ref itself keeps its value,
exactly as in the source. -/
def clearCurrent (s : ControllerState) : ControllerState :=
  match s.timeoutRef with
  | some id => { s with liveTimers := s.liveTimers.filter (fun t => t ≠ id) }
  | none => s

/-- `handleMessage`: first clear the currently referenced timeout, then
parse the payload (`none` = JSON.parse threw; the catch block logs a
warning).  On success each recognized truthy key is dispatched in source
order: `verify`, `expired`, `error` each run `handleClose` and then their
host callback; `onReady` sets the `captchaLoaded` ref. -/
def handleMessage (s : ControllerState) (r : Option Payload) : ControllerState :=
  let s0 := clearCurrent s
  match r with
  | none => { s0 with log := s0.log ++ [.warn] }
  | some p =>
      let s1 := if truthy p.verify then
          let c := handleClose s0
          { c with log := c.log ++ [.cbVerify (p.verify.getD "")] }
        else s0
      let s2 := if truthy p.expired then
          let c := handleClose s1
          { c with log := c.log ++ [.cbExpire] }
        else s1
      let s3 := if truthy p.error then
          let c := handleClose s2
          { c with log := c.log ++ [.cbError (p.error.getD "")] }
        else s2
      if p.onReady then { s3 with captchaLoaded := true } else s3

/-- The timer callback armed by `handleOpen`, firing timer `id`: enabled
only while `id` is live (a cleared timer never fires).  It invokes the
host's `onError('timeout')`, hides the container, injects the reset script,
and stops the loader.  It does not run `handleClose`, so no `onClose` is
emitted on this path. -/
def fireTimeout (s : ControllerState) (id : Nat) : ControllerState :=
  if s.liveTimers.contains id then
    { s with
        liveTimers := s.liveTimers.filter (fun t => t ≠ id)
        log := s.log ++ [.cbError "timeout", .injectReset]
        containerOpacity := 0
        containerZIndex := -1000
        loading := false }
  else s

/-- An external event driving the controller: the two host commands, a
message from the sandbox (already split on JSON parse success), or the
scheduler firing an armed timer. -/
inductive Event where
  | openCmd
  | closeCmd
  | message (r : Option Payload)
  | timerFire (id : Nat)
deriving DecidableEq, Repr

/-- One controller step. -/
def step (s : ControllerState) : Event → ControllerState
  | .openCmd => handleOpen s
  | .closeCmd => handleClose s
  | .message r => handleMessage s r
  | .timerFire id => fireTimeout s id

/-- Run the controller over a trace of events. -/
def run (s : ControllerState) (evs : List Event) : ControllerState :=
  evs.foldl step s

/-- The effects `handleMessage` appends for a given parse result: a warning
for unparseable input, otherwise the dispatch of each truthy key in source
order. -/
def msgEffects : Option Payload → List Effect
  | none => [.warn]
  | some p =>
      (if truthy p.verify then [.injectReset, .cbClose, .cbVerify (p.verify.getD "")] else [])
        ++ (if truthy p.expired then [.injectReset, .cbClose, .cbExpire] else [])
        ++ (if truthy p.error then [.injectReset, .cbClose, .cbError (p.error.getD "")] else [])

/-- Whether an effect is an invocation of one of the four host callbacks. -/
def isHostCallback : Effect → Bool
  | .cbVerify _ => true
  | .cbExpire => true
  | .cbError _ => true
  | .cbClose => true
  | _ => false

/-- Whether an effect is a host `onError` invocation. -/
def isCbError : Effect → Bool
  | .cbError _ => true
  | _ => false

/-- Whether an effect is a host `onVerify` invocation. -/
def isCbVerify : Effect → Bool
  | .cbVerify _ => true
  | _ => false

/-- Whether a log contains an `onError` invocation strictly after an
`onVerify` invocation. -/
def errorAfterVerify (l : List Effect) : Bool :=
  ((l.dropWhile (fun e => !isCbVerify e)).drop 1).any isCbError

/-- The log extension of `handleMessage` is a pure function of the parse
result: `clearCurrent` never touches the log, and each truthy key appends
its fixed effect segment in source order. -/
theorem handleMessage_log (s : ControllerState) (r : Option Payload) :
    (handleMessage s r).log = s.log ++ msgEffects r := by
  cases r with
  | none =>
      cases h : s.timeoutRef <;>
        simp [handleMessage, clearCurrent, msgEffects, h]
  | some p =>
      cases h : s.timeoutRef <;>
        cases hv : truthy p.verify <;>
          cases hx : truthy p.expired <;>
            cases he : truthy p.error <;>
              cases hr : p.onReady <;>
                simp [handleMessage, clearCurrent, handleClose, msgEffects,
                  h, hv, hx, he, hr, List.append_assoc]

/-- Firing timers from a state with no live timer is a no-op: every
`timerFire` event is disabled, so any such trace leaves the state fixed. -/
theorem run_timerFire_no_live (s : ControllerState) (h : s.liveTimers = [])
    (ids : List Nat) : run s (ids.map Event.timerFire) = s := by
  induction ids with
  | nil => rfl
  | cons i is ih =>
      have hstep : step s (Event.timerFire i) = s := by
        simp [step, fireTimeout, h]
      show run (step s (Event.timerFire i)) (is.map Event.timerFire) = s
      rw [hstep, ih]

/-- C1: the spec asserts that a second `open()` cancels the first call's
pending timeout, so at most one timeout is pending and at most one
`error("timeout")` is delivered per pair of calls.  The code's `handleOpen`
overwrites `timeout.current` without calling `clearTimeout`, so after two
`open()` calls both timers are still live, and when both elapse the host's
`onError('timeout')` is invoked twice. -/
theorem C1_double_timeout_delivery :
    (run initState [.openCmd, .openCmd]).liveTimers = [0, 1] ∧
    ((run initState [.openCmd, .openCmd, .timerFire 0, .timerFire 1]).log.count
      (Effect.cbError "timeout")) = 2 := by
  decide

/-- C2 counterexample: the claim states that a `verify` message within the
timeout window does not call `onClose`; in the code the `verify` branch of
`handleMessage` runs `handleClose`, which invokes `onClose`, so after
`open()` and `{"verify":"tok-123"}` the log contains exactly one `cbClose`. -/
theorem C2_onclose_fired :
    ((run initState
        [.openCmd, .message (some { verify := some "tok-123" })]).log.count
      Effect.cbClose) = 1 := by
  decide

/-- C2 amended: after `open()` and an ingested `{"verify": t}` (with `t`
truthy) the controller calls `onVerify(t)` exactly once and hides the
container (opacity 0, z-index behind), but `onClose` IS also invoked once,
because the `verify` branch performs the full close routine. -/
theorem C2_verify_cycle (t : String) (h : t ≠ "") :
    (run initState [.openCmd, .message (some { verify := some t })]).log =
      [.injectReset, .injectExecute, .injectReset, .cbClose, .cbVerify t] ∧
    (run initState
        [.openCmd, .message (some { verify := some t })]).containerOpacity = 0 ∧
    (run initState
        [.openCmd, .message (some { verify := some t })]).containerZIndex = -1000 := by
  refine ⟨?_, ?_, ?_⟩ <;>
    simp [run, step, handleMessage, clearCurrent, handleOpen, handleClose,
      initState, truthy, h]

/-- Witness for C2: the amended theorem applied at the spec's own scenario
token `tok-123`. -/
theorem C2_verify_cycle_witness :
    (run initState [.openCmd, .message (some { verify := some "tok-123" })]).log =
      [.injectReset, .injectExecute, .injectReset, .cbClose, .cbVerify "tok-123"] ∧
    (run initState
        [.openCmd, .message (some { verify := some "tok-123" })]).containerOpacity = 0 ∧
    (run initState
        [.openCmd, .message (some { verify := some "tok-123" })]).containerZIndex = -1000 :=
  C2_verify_cycle "tok-123" (by decide)

/-- C3 counterexample: the claim states that after `close()` resolves a
cycle no later timeout-driven `onError("timeout")` fires; in the code
`handleClose` does not clear the timeout armed by `handleOpen`, so the
timer is still live and firing it delivers `onError('timeout')`. -/
theorem C3_timeout_after_close :
    ((run initState [.openCmd, .closeCmd, .timerFire 0]).log.count
      (Effect.cbError "timeout")) = 1 := by
  decide

/-- C3 amended: `close()` during a cycle fires `onClose` once, hides the
container, injects the widget reset, and itself fires no
`onVerify`/`onExpire`/`onError` (the log holds exactly the two `open()`
injections, the reset, and `cbClose`); but the pending timeout is NOT
cancelled — timer 0 is still live — so a later timeout-driven
`onError("timeout")` can still fire for the cycle. -/
theorem C3_close_cycle :
    (run initState [.openCmd, .closeCmd]).log =
      [.injectReset, .injectExecute, .injectReset, .cbClose] ∧
    (run initState [.openCmd, .closeCmd]).containerOpacity = 0 ∧
    (run initState [.openCmd, .closeCmd]).containerZIndex = -1000 ∧
    (run initState [.openCmd, .closeCmd]).liveTimers = [0] := by
  decide

/-- C5 counterexample: the claim states the timeout's side effects equal
those of an ingested `error` message; but an ingested error runs
`handleClose` (invoking `onClose`) while the timeout callback performs the
visual/reset effects inline without `onClose`: `cbClose` count 0 versus 1. -/
theorem C5_no_onclose_on_timeout :
    ((run initState [.openCmd, .timerFire 0]).log.count Effect.cbClose) = 0 ∧
    ((run initState
        [.openCmd, .message (some { error := some "net" })]).log.count
      Effect.cbClose) = 1 := by
  decide

/-- C5 amended: when the timeout armed by `open()` fires with no message
having arrived, the controller invokes `onError('timeout')` exactly once,
hides the container, injects the widget reset, stops the loading indicator,
and the fired timer is no longer live; unlike an ingested `error` message it
does not invoke `onClose`. -/
theorem C5_timeout_fire :
    (run initState [.openCmd, .timerFire 0]).log =
      [.injectReset, .injectExecute, .cbError "timeout", .injectReset] ∧
    (run initState [.openCmd, .timerFire 0]).containerOpacity = 0 ∧
    (run initState [.openCmd, .timerFire 0]).containerZIndex = -1000 ∧
    (run initState [.openCmd, .timerFire 0]).loading = false ∧
    (run initState [.openCmd, .timerFire 0]).liveTimers = [] := by
  decide

/-- C4 counterexample: the claim states an `onReady` message leaves the
pending timeout unchanged; in the code `handleMessage` runs
`clearTimeout(timeout.current)` before dispatching any key, so the timer
armed by `open()` (live in `[0]`) is cancelled by the `onReady` message. -/
theorem C4_onready_cancels_timeout :
    (run initState [.openCmd]).liveTimers = [0] ∧
    (run initState
        [.openCmd, .message (some { onReady := true })]).liveTimers = [] := by
  decide

/-- C4 amended: an ingested message whose payload carries (only) a truthy
`onReady` key sets the loaded flag, performs no state transition — log,
opacity, z-index and loading are untouched — but, like every ingested
message, it cancels the currently referenced pending timeout (which is not
re-armed). -/
theorem C4_onready_effects (s : ControllerState) (p : Payload)
    (hr : p.onReady = true) (hv : truthy p.verify = false)
    (hx : truthy p.expired = false) (he : truthy p.error = false) :
    (handleMessage s (some p)).captchaLoaded = true ∧
    (handleMessage s (some p)).log = s.log ∧
    (handleMessage s (some p)).containerOpacity = s.containerOpacity ∧
    (handleMessage s (some p)).containerZIndex = s.containerZIndex ∧
    (handleMessage s (some p)).loading = s.loading ∧
    ∀ id, s.timeoutRef = some id → id ∉ (handleMessage s (some p)).liveTimers := by
  cases h : s.timeoutRef <;>
    simp [handleMessage, clearCurrent, h, hr, hv, hx, he, List.mem_filter]

/-- Witness for C4: the amended theorem applied right after `open()`, with
the pure `onReady` payload. -/
theorem C4_onready_effects_witness :
    (handleMessage (run initState [.openCmd])
        (some { onReady := true })).captchaLoaded = true ∧
    (handleMessage (run initState [.openCmd])
        (some { onReady := true })).log = (run initState [.openCmd]).log ∧
    (handleMessage (run initState [.openCmd])
        (some { onReady := true })).containerOpacity
      = (run initState [.openCmd]).containerOpacity ∧
    (handleMessage (run initState [.openCmd])
        (some { onReady := true })).containerZIndex
      = (run initState [.openCmd]).containerZIndex ∧
    (handleMessage (run initState [.openCmd])
        (some { onReady := true })).loading = (run initState [.openCmd]).loading ∧
    ∀ id, (run initState [.openCmd]).timeoutRef = some id →
      id ∉ (handleMessage (run initState [.openCmd])
        (some { onReady := true })).liveTimers :=
  C4_onready_effects (run initState [.openCmd]) { onReady := true } rfl rfl rfl rfl

/-- A configuration whose `siteKey` holds a double quote, closing the
`data-sitekey` attribute early and smuggling a new attribute in. -/
def breakoutParams : TemplateParams := { siteKey := "x\" onload=\"evil()" }

set_option maxRecDepth 100000

/-- C6 counterexample: the claim states interpolated values are escaped or
constrained so they cannot break out of the attribute context; with a
`siteKey` containing a double quote, the `data-sitekey` attribute value an
HTML parser recovers from the generated document is `x`, not the supplied
key — the quote terminated the attribute. -/
theorem C6_attribute_breakout :
    siteKeyAttr (getTemplate breakoutParams false) = some "x" ∧
    breakoutParams.siteKey = "x\" onload=\"evil()" ∧
    some breakoutParams.siteKey ≠ some "x" := by
  refine ⟨by decide, by decide, by decide⟩

/-- C6 amended: `getTemplate` performs no escaping at all: for every
configuration the generated document contains
`data-sitekey="` ++ `siteKey` ++ `"` with the raw `siteKey` spliced in
verbatim, so a `siteKey` containing a double quote terminates the attribute
early (as the counterexample shows). -/
theorem C6_verbatim_interpolation (p : TemplateParams) (e : Bool) :
    ∃ a b : String, getTemplate p e =
      a ++ ("data-sitekey=\"" ++ p.siteKey ++ "\"") ++ b := by
  refine ⟨tpl1 ++ jsStr p.lang ++ tpl2 ++ (if e then "enterprise" else "api")
      ++ tpl3 ++ (if p.hideBadge then badgeCss else "") ++ tpl4,
    tpl5 ++ jsStr (p.size.map RecaptchaSize.toStr) ++ tpl6
      ++ (if p.debug then debugDiv else "") ++ tpl7, ?_⟩
  simp only [getTemplate, String.append_assoc]

/-- C7 counterexample: the claim states the three terminal outcomes are
mutually exclusive within one cycle and `onError` never follows `onVerify`;
a single ingested message carrying both a truthy `verify` and a truthy
`error` key makes `handleMessage` invoke `onVerify` and then `onError` in
the same cycle. -/
theorem C7_multikey_error_after_verify :
    errorAfterVerify (run initState
      [.openCmd, .message (some { verify := some "t", error := some "boom" })]).log
      = true := by
  decide

/-- C7 amended: for a cycle resolved by a verify-only message the claim's
mechanism does hold: `clearTimeout` runs synchronously at message entry, so
after `onVerify` the armed timer is dead and any sequence of subsequent
timer firings leaves the controller state — in particular its log —
unchanged: the timeout-driven `onError("timeout")` can never follow
`onVerify`.  (Mutual exclusivity fails only for multi-key messages, as the
counterexample shows.) -/
theorem C7_timeout_suppressed (t : String) (h : t ≠ "") (fires : List Nat) :
    (run initState [.openCmd, .message (some { verify := some t })]).log =
      [.injectReset, .injectExecute, .injectReset, .cbClose, .cbVerify t] ∧
    run (run initState [.openCmd, .message (some { verify := some t })])
        (fires.map Event.timerFire)
      = run initState [.openCmd, .message (some { verify := some t })] := by
  constructor
  · simp [run, step, handleMessage, clearCurrent, handleOpen, handleClose,
      initState, truthy, h]
  · apply run_timerFire_no_live
    simp [run, step, handleMessage, clearCurrent, handleOpen, handleClose,
      initState, truthy, h]

/-- Witness for C7: the amended theorem applied at token `tok` with three
attempted timer firings. -/
theorem C7_timeout_suppressed_witness :
    (run initState [.openCmd, .message (some { verify := some "tok" })]).log =
      [.injectReset, .injectExecute, .injectReset, .cbClose, .cbVerify "tok"] ∧
    run (run initState [.openCmd, .message (some { verify := some "tok" })])
        ([0, 1, 5].map Event.timerFire)
      = run initState [.openCmd, .message (some { verify := some "tok" })] :=
  C7_timeout_suppressed "tok" (by decide) [0, 1, 5]

/-- C8: a message that fails to parse is logged and discarded: the log only
gains the console warning (no host callback — the filtered callback trace is
unchanged), the visual state, loaded flag and loader are untouched, no
exception escapes (`handleMessage` is total), and any subsequent message is
dispatched exactly by its own payload, unaffected by the malformed one. -/
theorem C8_malformed_discarded (s : ControllerState) :
    (handleMessage s none).log = s.log ++ [Effect.warn] ∧
    (handleMessage s none).log.filter isHostCallback
      = s.log.filter isHostCallback ∧
    (handleMessage s none).containerOpacity = s.containerOpacity ∧
    (handleMessage s none).containerZIndex = s.containerZIndex ∧
    (handleMessage s none).captchaLoaded = s.captchaLoaded ∧
    (handleMessage s none).loading = s.loading ∧
    ∀ r, (handleMessage (handleMessage s none) r).log
        = (handleMessage s none).log ++ msgEffects r := by
  refine ⟨handleMessage_log s none, ?_, ?_, ?_, ?_, ?_, fun r => handleMessage_log _ r⟩
  · rw [handleMessage_log]
    simp [msgEffects, isHostCallback]
  all_goals cases h : s.timeoutRef <;> simp [handleMessage, clearCurrent, h]

/-- C9: the Bridge Document Builder is deterministic: equal configurations
and equal enterprise flags yield (byte-)identical documents.  Purity is
expressed by the embedding itself: `getTemplate` is a plain function on the
configuration record with no state. -/
theorem C9_deterministic (p₁ p₂ : TemplateParams) (e₁ e₂ : Bool)
    (hp : p₁ = p₂) (he : e₁ = e₂) :
    getTemplate p₁ e₁ = getTemplate p₂ e₂ := by
  rw [hp, he]

/-- Witness for C9: determinism applied at a concrete configuration. -/
theorem C9_deterministic_witness :
    getTemplate { siteKey := "KEY", size := some .invisible, lang := some "en" } false
      = getTemplate { siteKey := "KEY", size := some .invisible, lang := some "en" } false :=
  C9_deterministic
    { siteKey := "KEY", size := some .invisible, lang := some "en" }
    { siteKey := "KEY", size := some .invisible, lang := some "en" }
    false false rfl rfl

/-- C10: a payload carrying several recognized keys is not rejected and no
single key is picked: every truthy key is dispatched in the fixed source
order `verify`, `expired`, `error` (each segment running the close routine —
`cbClose` fires once per truthy terminal key — then the key's host
callback), and `onReady` afterwards sets the loaded flag. -/
theorem C10_multikey_dispatch (s : ControllerState) (p : Payload) :
    (handleMessage s (some p)).log = s.log
        ++ (if truthy p.verify then
              [Effect.injectReset, Effect.cbClose, Effect.cbVerify (p.verify.getD "")]
            else [])
        ++ (if truthy p.expired then
              [Effect.injectReset, Effect.cbClose, Effect.cbExpire]
            else [])
        ++ (if truthy p.error then
              [Effect.injectReset, Effect.cbClose, Effect.cbError (p.error.getD "")]
            else []) ∧
    (handleMessage s (some p)).captchaLoaded = (p.onReady || s.captchaLoaded) ∧
    ((msgEffects (some p)).count Effect.cbClose) =
      (if truthy p.verify then 1 else 0) + (if truthy p.expired then 1 else 0)
        + (if truthy p.error then 1 else 0) := by
  refine ⟨?_, ?_, ?_⟩
  · rw [handleMessage_log]
    simp [msgEffects, List.append_assoc]
  · cases h : s.timeoutRef <;>
      cases hv : truthy p.verify <;>
        cases hx : truthy p.expired <;>
          cases he : truthy p.error <;>
            cases hr : p.onReady <;>
              simp [handleMessage, clearCurrent, handleClose, h, hv, hx, he, hr]
  · cases hv : truthy p.verify <;>
      cases hx : truthy p.expired <;>
        cases he : truthy p.error <;>
          simp [msgEffects, hv, hx, he, List.count_cons, List.count_append,
            beq_iff_eq]

end Recaptcha
